import Mathlib

/-!
# Verification of the Aurora DSQL TPC-C connector

Shallow embedding of `src/database/aurora_connector.py`:

* the statement classifier (`DDL_PATTERN` / `DML_PATTERN` and their use in
  `execute_query`, lines 20-23 and 164-165), and
* the `execute_new_order` TPC-C New-Order transaction (lines 223-374).

The database visible to one `execute_new_order` call is modelled as an
explicit state (`DB`): the keyed tables the transaction reads or updates
(`district`, `customer`, `item`, `stock`) as partial maps, and the tables it
only inserts into (`orders`, `new_order`, `order_line`) as row lists.
Python integers are `Int`.  The transaction body is state passing through
`Except`; the surrounding `try/except` commits the worked state on success
and, on any raised error, rolls the transaction back (the committed state
stays the original) and re-raises.  Each `cur.execute` call is also recorded
in a statement trace (operation kind × target table) so that frame claims
about which tables are written can be stated.
-/

/-! ## Statement classifier (lines 20-23, 164-165) -/

/-- The three classes a statement can fall into in `execute_query`:
`is_ddl`, `is_dml`, or the read-only `else` branch. -/
inductive StmtClass where
  | DDL
  | DML
  | READ
  deriving Repr, DecidableEq

/-- Python's `\s` on the ASCII range: space, tab, newline, carriage return,
vertical tab, form feed. -/
def isPyWs (c : Char) : Bool :=
  c = ' ' || c = '\t' || c = '\n' || c = '\r' || c = '\x0b' || c = '\x0c'

/-- The `\s*` at the start of both regex patterns: drop leading whitespace.
(Implemented on the character list of the string.) -/
def stripLeadingWs (s : String) : String :=
  String.mk (s.data.dropWhile isPyWs)

/-- ASCII uppercasing of a string, character by character (the keywords are
ASCII, so this is what `re.IGNORECASE` amounts to here). -/
def upperAscii (s : String) : String :=
  String.mk (s.data.map Char.toUpper)

/-- The first `n` characters of a string. -/
def prefixOfLength (s : String) (n : Nat) : String :=
  String.mk (s.data.take n)

/-- The alternatives of `DDL_PATTERN` (line 21). -/
def DDL_KEYWORDS : List String :=
  ["CREATE", "ALTER", "DROP", "TRUNCATE", "RENAME", "GRANT", "REVOKE"]

/-- The alternatives of `DML_PATTERN` (line 23). -/
def DML_KEYWORDS : List String :=
  ["INSERT", "UPDATE", "DELETE"]

/-- Case-insensitive prefix test: `re.match` with `re.IGNORECASE` against a
keyword alternative matches when the first `kw.length` characters of `s`,
uppercased, are `kw`.  (The patterns have no trailing `\b`, so this is a raw
prefix test, not a whole-word test.) -/
def ciStartsWith (s kw : String) : Bool :=
  upperAscii (prefixOfLength s kw.data.length) = kw

/-- `bool(PATTERN.match(query))` for a pattern `^\s*(kw1|kw2|...)`. -/
def matchesKeywordAlt (kws : List String) (q : String) : Bool :=
  kws.any (fun kw => ciStartsWith (stripLeadingWs q) kw)

/-- The classification performed in `execute_query` (lines 164-165 with the
`if is_ddl / elif is_dml / else` chain at lines 171-190). -/
def classify (q : String) : StmtClass :=
  if matchesKeywordAlt DDL_KEYWORDS q then .DDL
  else if matchesKeywordAlt DML_KEYWORDS q then .DML
  else .READ

/-- The statement's leading keyword: the maximal run of non-whitespace
characters after leading whitespace is dropped. -/
def leadingKeyword (q : String) : String :=
  String.mk ((stripLeadingWs q).data.takeWhile (fun c => !(isPyWs c)))

/-- Modelled from the spec's words for comparison with `classify` (the spec
rule "match the statement's leading keyword (ignoring leading whitespace,
case-insensitive) against two disjoint keyword sets"): classify by exact
membership of the leading keyword in the keyword sets. -/
def classifyByLeadingKeyword (q : String) : StmtClass :=
  if upperAscii (leadingKeyword q) ∈ DDL_KEYWORDS then .DDL
  else if upperAscii (leadingKeyword q) ∈ DML_KEYWORDS then .DML
  else .READ

/-! ## Data model -/

/-- The customer columns read in step 3 (line 274). -/
structure Customer where
  c_discount : Int
  c_credit : String
  c_last : String
  deriving Repr, DecidableEq

/-- The stock columns read in the per-item `FOR UPDATE` select (line 323). -/
structure Stock where
  s_quantity : Int
  s_ytd : Int
  s_order_cnt : Int
  s_remote_cnt : Int
  deriving Repr, DecidableEq

/-- One entry of the `items` argument: `{'item_id': int, 'quantity': int}`. -/
structure LineItem where
  item_id : Int
  quantity : Int
  deriving Repr, DecidableEq

/-- A row of `orders` as inserted at line 288 (`o_entry_d` is
`CURRENT_TIMESTAMP`, a wall-clock value outside the model). -/
structure OrderRow where
  o_id : Int
  o_d_id : Int
  o_w_id : Int
  o_c_id : Int
  o_carrier_id : Option Int
  o_ol_cnt : Nat
  o_all_local : Int
  deriving Repr, DecidableEq

/-- A row of `new_order` as inserted at line 297. -/
structure NewOrderRow where
  no_o_id : Int
  no_d_id : Int
  no_w_id : Int
  deriving Repr, DecidableEq

/-- A row of `order_line` as inserted at line 351. -/
structure OrderLineRow where
  ol_o_id : Int
  ol_d_id : Int
  ol_w_id : Int
  ol_number : Nat
  ol_i_id : Int
  ol_supply_w_id : Int
  ol_delivery_d : Option Int
  ol_quantity : Int
  ol_amount : Int
  ol_dist_info : String
  deriving Repr, DecidableEq

/-- The database state one `execute_new_order` call can observe.  The keyed
tables hold the columns the transaction touches: `district` is keyed by
(warehouse, district) and holds `d_next_o_id`; `item` is keyed by `i_id` and
holds `i_price`. -/
structure DB where
  district : Int → Int → Option Int
  customer : Int → Int → Int → Option Customer
  item : Int → Option Int
  stock : Int → Int → Option Stock
  orders : List OrderRow
  new_orders : List NewOrderRow
  order_lines : List OrderLineRow

/-! ## Statement trace -/

/-- The kind of SQL statement a `cur.execute` call issues. -/
inductive SqlOp where
  | selectOp
  | selectForUpdateOp
  | insertOp
  | updateOp
  deriving Repr, DecidableEq

/-- The tables named in the transaction's statements. -/
inductive Table where
  | district
  | customer
  | orders
  | new_order
  | item
  | stock
  | order_line
  deriving Repr, DecidableEq

/-- One issued statement: operation kind and target table. -/
structure Stmt where
  op : SqlOp
  table : Table
  deriving Repr, DecidableEq

/-- Whether a statement kind modifies rows. -/
def SqlOp.isWrite : SqlOp → Bool
  | .insertOp => true
  | .updateOp => true
  | _ => false

/-! ## Errors -/

/-- Exceptions that propagate out of the connector: the `ValueError`s raised
by `execute_new_order` itself (lines 258, 282, 317, 332), and errors raised
by the driver/backend (connection, rollback, conflict aborts), carried
opaquely. -/
inductive PyErr where
  | valueError (msg : String)
  | dbError (msg : String)
  deriving Repr, DecidableEq

/-- Whether an exception is a `ValueError`. -/
def PyErr.isValueError : PyErr → Bool
  | .valueError _ => true
  | _ => false

/-! ## The New-Order transaction (lines 223-374) -/

/-- The SQL `UPDATE district SET d_next_o_id = d_next_o_id + 1 WHERE
d_w_id = w AND d_id = d` (line 262): increment the counter of the matching
row, leave every other key unchanged. -/
def incrDistrict (f : Int → Int → Option Int) (w d : Int) :
    Int → Int → Option Int :=
  fun w' d' =>
    if w' = w ∧ d' = d then (f w' d').map (fun v => v + 1) else f w' d'

/-- Point update of the stock table at key (w, i). -/
def updStock (f : Int → Int → Option Stock) (w i : Int) (v : Stock) :
    Int → Int → Option Stock :=
  fun w' i' => if w' = w ∧ i' = i then some v else f w' i'

/-- Lines 334-336: `new_qty = stock["s_quantity"] - quantity; if new_qty <
10: new_qty += 100`. -/
def newStockQuantity (s_quantity quantity : Int) : Int :=
  let new_qty := s_quantity - quantity
  if new_qty < 10 then new_qty + 100 else new_qty

/-- The stock row after the `UPDATE stock` at line 338: `s_quantity` set to
the wrapped quantity, `s_ytd` increased by the ordered quantity,
`s_order_cnt` increased by 1; no other column appears in the SET list. -/
def stockUpdate (stk : Stock) (quantity : Int) : Stock :=
  { s_quantity := newStockQuantity stk.s_quantity quantity
    s_ytd := stk.s_ytd + quantity
    s_order_cnt := stk.s_order_cnt + 1
    s_remote_cnt := stk.s_remote_cnt }

/-- The `order_line` row inserted at line 351 for one line item. -/
def olRow (warehouse_id district_id next_o_id : Int) (line_number : Nat)
    (it : LineItem) (price : Int) : OrderLineRow :=
  { ol_o_id := next_o_id
    ol_d_id := district_id
    ol_w_id := warehouse_id
    ol_number := line_number
    ol_i_id := it.item_id
    ol_supply_w_id := warehouse_id
    ol_delivery_d := none
    ol_quantity := it.quantity
    ol_amount := it.quantity * price
    ol_dist_info := "S_DIST_INFO" }

/-- One iteration of the per-item loop (lines 306-363): item price lookup,
stock `FOR UPDATE` read, stock update with wraparound, order-line insert.
Returns the extended statement trace and either the worked state or the
raised error. -/
def processItem (warehouse_id district_id next_o_id : Int)
    (line_number : Nat) (it : LineItem) (db : DB) (tr : List Stmt) :
    List Stmt × Except PyErr DB :=
  let tr1 := tr ++ [⟨.selectOp, .item⟩]
  match db.item it.item_id with
  | none =>
      (tr1, .error (.valueError ("Item " ++ toString it.item_id ++ " not found")))
  | some price =>
      let tr2 := tr1 ++ [⟨.selectForUpdateOp, .stock⟩]
      match db.stock warehouse_id it.item_id with
      | none =>
          (tr2, .error (.valueError
            ("Stock for item " ++ toString it.item_id ++ " not found")))
      | some stk =>
          let tr3 := tr2 ++ [⟨.updateOp, .stock⟩]
          let db1 : DB :=
            { db with stock :=
                updStock db.stock warehouse_id it.item_id (stockUpdate stk it.quantity) }
          let tr4 := tr3 ++ [⟨.insertOp, .order_line⟩]
          let db2 : DB :=
            { db1 with order_lines :=
                db1.order_lines ++ [olRow warehouse_id district_id next_o_id line_number it price] }
          (tr4, .ok db2)

/-- The `for line_number, item in enumerate(items, start=1)` loop: process
the items in input order, threading the state; any raised error aborts the
rest of the loop. -/
def processItems (warehouse_id district_id next_o_id : Int) :
    Nat → List LineItem → DB → List Stmt → List Stmt × Except PyErr DB
  | _, [], db, tr => (tr, .ok db)
  | n, it :: rest, db, tr =>
      match processItem warehouse_id district_id next_o_id n it db tr with
      | (tr', .error e) => (tr', .error e)
      | (tr', .ok db') =>
          processItems warehouse_id district_id next_o_id (n + 1) rest db' tr'

/-- The transaction body of `execute_new_order` (steps 1-6, lines 246-363):
district `FOR UPDATE` read, counter increment, customer read, `orders` and
`new_order` inserts, then the per-item loop.  Returns the statement trace
issued so far and either (worked state, order id) or the raised error. -/
def newOrderTxn (db : DB) (warehouse_id district_id customer_id : Int)
    (items : List LineItem) : List Stmt × Except PyErr (DB × Int) :=
  let tr1 : List Stmt := [⟨.selectForUpdateOp, .district⟩]
  match db.district warehouse_id district_id with
  | none => (tr1, .error (.valueError "District not found"))
  | some next_o_id =>
      let tr2 := tr1 ++ [⟨.updateOp, .district⟩]
      let db1 : DB :=
        { db with district := incrDistrict db.district warehouse_id district_id }
      let tr3 := tr2 ++ [⟨.selectOp, .customer⟩]
      match db1.customer warehouse_id district_id customer_id with
      | none => (tr3, .error (.valueError "Customer not found"))
      | some _customer =>
          let o_ol_cnt := items.length
          let o_all_local : Int := 1
          let tr4 := tr3 ++ [⟨.insertOp, .orders⟩]
          let db2 : DB :=
            { db1 with orders := db1.orders ++
                [{ o_id := next_o_id, o_d_id := district_id, o_w_id := warehouse_id
                   o_c_id := customer_id, o_carrier_id := none
                   o_ol_cnt := o_ol_cnt, o_all_local := o_all_local }] }
          let tr5 := tr4 ++ [⟨.insertOp, .new_order⟩]
          let db3 : DB :=
            { db2 with new_orders := db2.new_orders ++
                [{ no_o_id := next_o_id, no_d_id := district_id, no_w_id := warehouse_id }] }
          match processItems warehouse_id district_id next_o_id 1 items db3 tr5 with
          | (tr', .error e) => (tr', .error e)
          | (tr', .ok db4) => (tr', .ok (db4, next_o_id))

/-- `execute_new_order` (lines 223-374): run the transaction body; on
success commit (line 366) and return the order id; on any raised error roll
back (line 373) — the committed state stays the original — and re-raise
(line 374). -/
def execute_new_order (db : DB) (warehouse_id district_id customer_id : Int)
    (items : List LineItem) : DB × Except PyErr Int :=
  match (newOrderTxn db warehouse_id district_id customer_id items).2 with
  | .ok (db', oid) => (db', .ok oid)
  | .error e => (db, .error e)

/-- The statements `execute_new_order` issues (before commit/rollback). -/
def newOrderTrace (db : DB) (warehouse_id district_id customer_id : Int)
    (items : List LineItem) : List Stmt :=
  (newOrderTxn db warehouse_id district_id customer_id items).1

/-! ## The two `except` blocks (lines 196-205 and 370-374)

Which exception a caller sees when the body raised `original` and the
subsequent `connection.rollback()` call behaves as `rollbackResult`. -/

/-- `execute_query`'s except block (lines 196-205): the rollback call sits
inside its own `try/except`, so a rollback failure is only logged and the
final bare `raise` re-raises the original exception. -/
def executeQueryOnError (original : PyErr) (rollbackResult : Except PyErr Unit) :
    PyErr :=
  match rollbackResult with
  | .ok _ => original
  | .error _ => original

/-- `execute_new_order`'s except block (lines 370-374): the rollback call is
not guarded, so an exception raised by the rollback propagates from the
except block in place of the original; only when rollback succeeds does the
bare `raise` re-raise the original. -/
def executeNewOrderOnError (original : PyErr) (rollbackResult : Except PyErr Unit) :
    PyErr :=
  match rollbackResult with
  | .ok _ => original
  | .error e => e

/-! ## Derived predicates and expected results -/

/-- Tables the transaction is allowed to write (claim: every INSERT or
UPDATE targets only district, orders, new_order, stock, order_line). -/
def writeTableAllowed : Table → Bool
  | .district => true
  | .orders => true
  | .new_order => true
  | .stock => true
  | .order_line => true
  | .customer => false
  | .item => false

/-- A statement respects the write frame: if it modifies rows, its target
table is one of the allowed ones (in particular never customer or item). -/
def stmtFrameOk (s : Stmt) : Bool :=
  !s.op.isWrite || writeTableAllowed s.table

/-- The order-line rows a successful run appends, computed from the item
price map: one `olRow` per line item, line numbers counting up from `n`. -/
def expectedOrderLines (dbitem : Int → Option Int) (w d no : Int) :
    Nat → List LineItem → List OrderLineRow
  | _, [] => []
  | n, it :: rest =>
      match dbitem it.item_id with
      | none => []
      | some price =>
          olRow w d no n it price :: expectedOrderLines dbitem w d no (n + 1) rest

/-- The messages of the `ValueError`s `execute_new_order` can raise. -/
def notFoundMessage (m : String) : Prop :=
  m = "District not found" ∨ m = "Customer not found" ∨
  (∃ iid : Int, m = "Item " ++ toString iid ++ " not found") ∨
  (∃ iid : Int, m = "Stock for item " ++ toString iid ++ " not found")

/-! ## Concrete states for witnesses and counterexamples

`dbT` is the spec's end-to-end scenario (district (1,1) at next order id 100,
customer (1,1,1), item 5 priced 20, stock (1,5) at quantity 12). -/

/-- A one-item test database. -/
def dbT : DB :=
  { district := fun w d => if w = 1 ∧ d = 1 then some 100 else none
    customer := fun w d c => if w = 1 ∧ d = 1 ∧ c = 1 then some ⟨5, "GC", "BARBAR"⟩ else none
    item := fun i => if i = 5 then some 20 else none
    stock := fun w i => if w = 1 ∧ i = 5 then some ⟨12, 0, 0, 0⟩ else none
    orders := []
    new_orders := []
    order_lines := [] }

/-- Five line items, the third of which (item 103) does not exist in `db5`. -/
def items5 : List LineItem :=
  [⟨101, 1⟩, ⟨102, 1⟩, ⟨103, 1⟩, ⟨104, 1⟩, ⟨105, 1⟩]

/-- A database for the fail-on-line-3-of-5 scenario: items 101, 102, 104,
105 exist with stock, item 103 is missing. -/
def db5 : DB :=
  { district := fun w d => if w = 1 ∧ d = 1 then some 200 else none
    customer := fun w d c => if w = 1 ∧ d = 1 ∧ c = 1 then some ⟨5, "GC", "BARBAR"⟩ else none
    item := fun i => if i = 101 ∨ i = 102 ∨ i = 104 ∨ i = 105 then some 10 else none
    stock := fun w i =>
      if w = 1 ∧ (i = 101 ∨ i = 102 ∨ i = 104 ∨ i = 105) then some ⟨50, 0, 0, 7⟩ else none
    orders := []
    new_orders := []
    order_lines := [] }

/-- A database with no district row at all. -/
def dbNoDistrict : DB :=
  { district := fun _ _ => none
    customer := fun _ _ _ => none
    item := fun _ => none
    stock := fun _ _ => none
    orders := []
    new_orders := []
    order_lines := [] }

/-- A database whose single item 1 is always in stock, used with very long
item lists. -/
def dbBig : DB :=
  { district := fun w d => if w = 1 ∧ d = 1 then some 100 else none
    customer := fun w d c => if w = 1 ∧ d = 1 ∧ c = 1 then some ⟨5, "GC", "BARBAR"⟩ else none
    item := fun i => if i = 1 then some 5 else none
    stock := fun w i => if w = 1 ∧ i = 1 then some ⟨90, 0, 0, 0⟩ else none
    orders := []
    new_orders := []
    order_lines := [] }

/-- 1499 line items: 1 district update + 1 order insert + 1 pending-order
insert + 2 rows per item = 3001 modified rows, above the 3000-row cap. -/
def bigItems : List LineItem :=
  List.replicate 1499 ⟨1, 2⟩

/-- 1500 line items: 3003 modified rows, above the 3000-row cap. -/
def bigItems2 : List LineItem :=
  List.replicate 1500 ⟨1, 2⟩

/-- A database holding item 6 with stock quantity 15 and item 7 with stock
quantity 50, for the two wraparound instances of the spec. -/
def dbC3 : DB :=
  { district := fun w d => if w = 1 ∧ d = 1 then some 100 else none
    customer := fun w d c => if w = 1 ∧ d = 1 ∧ c = 1 then some ⟨5, "GC", "BARBAR"⟩ else none
    item := fun i => if i = 6 ∨ i = 7 then some 20 else none
    stock := fun w i =>
      if w = 1 ∧ i = 6 then some ⟨15, 0, 0, 0⟩
      else if w = 1 ∧ i = 7 then some ⟨50, 0, 0, 0⟩ else none
    orders := []
    new_orders := []
    order_lines := [] }

/-- The state after processing line item ⟨6, 8⟩ on `dbC3`. -/
def dbC3a : DB :=
  { dbC3 with
    stock := updStock dbC3.stock 1 6 (stockUpdate ⟨15, 0, 0, 0⟩ 8)
    order_lines := [olRow 1 1 100 1 ⟨6, 8⟩ 20] }

/-- The state after processing line item ⟨7, 8⟩ on `dbC3`. -/
def dbC3b : DB :=
  { dbC3 with
    stock := updStock dbC3.stock 1 7 (stockUpdate ⟨50, 0, 0, 0⟩ 8)
    order_lines := [olRow 1 1 100 1 ⟨7, 8⟩ 20] }

/-! ## Lemmas about `processItem` -/

/-- Characterization of a successful `processItem` call: the item and stock
rows exist, the state change is exactly the stock update and the order-line
append, and the trace grows by the four per-item statements. -/
theorem processItem_eq_ok (w d no : Int) (n : Nat) (it : LineItem)
    (db : DB) (tr tr' : List Stmt) (db' : DB)
    (h : processItem w d no n it db tr = (tr', Except.ok db')) :
    ∃ price stk, db.item it.item_id = some price ∧
      db.stock w it.item_id = some stk ∧
      db'.district = db.district ∧ db'.customer = db.customer ∧
      db'.item = db.item ∧ db'.orders = db.orders ∧
      db'.new_orders = db.new_orders ∧
      db'.stock = updStock db.stock w it.item_id (stockUpdate stk it.quantity) ∧
      db'.order_lines = db.order_lines ++ [olRow w d no n it price] ∧
      tr' = tr ++ [⟨.selectOp, .item⟩, ⟨.selectForUpdateOp, .stock⟩,
        ⟨.updateOp, .stock⟩, ⟨.insertOp, .order_line⟩] := by
  unfold processItem at h
  cases hI : db.item it.item_id with
  | none => rw [hI] at h; simp at h
  | some price =>
    rw [hI] at h
    cases hS : db.stock w it.item_id with
    | none => rw [hS] at h; simp at h
    | some stk =>
      rw [hS] at h
      simp only [Prod.mk.injEq, Except.ok.injEq] at h
      obtain ⟨htr, hdb⟩ := h
      subst hdb
      subst htr
      exact ⟨price, stk, rfl, rfl, rfl, rfl, rfl, rfl, rfl, rfl, by simp⟩

/-- Any `processItem` call extends the trace by frame-respecting statements. -/
theorem processItem_trace (w d no : Int) (n : Nat) (it : LineItem)
    (db : DB) (tr : List Stmt) :
    ∃ ext, (processItem w d no n it db tr).1 = tr ++ ext ∧
      ext.all stmtFrameOk = true := by
  unfold processItem
  cases hI : db.item it.item_id with
  | none => exact ⟨[⟨.selectOp, .item⟩], rfl, by decide⟩
  | some price =>
    cases hS : db.stock w it.item_id with
    | none =>
      refine ⟨[⟨.selectOp, .item⟩, ⟨.selectForUpdateOp, .stock⟩], by simp, by decide⟩
    | some stk =>
      refine ⟨[⟨.selectOp, .item⟩, ⟨.selectForUpdateOp, .stock⟩,
        ⟨.updateOp, .stock⟩, ⟨.insertOp, .order_line⟩], by simp, by decide⟩

/-- A point update at an existing key preserves key presence everywhere. -/
theorem updStock_isSome (f : Int → Int → Option Stock) (w i : Int) (v : Stock)
    (w' i' : Int) (h : (f w' i').isSome = true) :
    (updStock f w i v w' i').isSome = true := by
  unfold updStock
  split
  · rfl
  · exact h

/-- A failing `processItem` raises one of the two per-item `ValueError`s. -/
theorem processItem_error (w d no : Int) (n : Nat) (it : LineItem)
    (db : DB) (tr tr' : List Stmt) (e : PyErr)
    (h : processItem w d no n it db tr = (tr', Except.error e)) :
    e = PyErr.valueError ("Item " ++ toString it.item_id ++ " not found") ∨
    e = PyErr.valueError ("Stock for item " ++ toString it.item_id ++ " not found") := by
  unfold processItem at h
  cases hI : db.item it.item_id with
  | none =>
    rw [hI] at h
    simp only [Prod.mk.injEq, Except.error.injEq] at h
    exact Or.inl h.2.symm
  | some price =>
    rw [hI] at h
    cases hS : db.stock w it.item_id with
    | none =>
      rw [hS] at h
      simp only [Prod.mk.injEq, Except.error.injEq] at h
      exact Or.inr h.2.symm
    | some stk =>
      rw [hS] at h
      simp at h

/-! ## Lemmas about `processItems` -/

/-- Characterization of a successful per-item loop: district, customer,
item, orders and new_orders are untouched; stock keys and their
`s_remote_cnt` are preserved; the order lines grow by exactly the expected
rows; and every processed item existed in the item table. -/
theorem processItems_eq_ok (w d no : Int) (items : List LineItem) :
    ∀ (n : Nat) (db : DB) (tr tr' : List Stmt) (db' : DB),
    processItems w d no n items db tr = (tr', Except.ok db') →
    db'.district = db.district ∧ db'.customer = db.customer ∧
    db'.item = db.item ∧ db'.orders = db.orders ∧
    db'.new_orders = db.new_orders ∧
    (∀ w' i', (db'.stock w' i').map Stock.s_remote_cnt
        = (db.stock w' i').map Stock.s_remote_cnt) ∧
    db'.order_lines = db.order_lines ++ expectedOrderLines db.item w d no n items ∧
    (∀ it ∈ items, (db.item it.item_id).isSome = true) := by
  induction items with
  | nil =>
    intro n db tr tr' db' h
    simp only [processItems, Prod.mk.injEq, Except.ok.injEq] at h
    obtain ⟨rfl, rfl⟩ := h
    simp [expectedOrderLines]
  | cons it rest ih =>
    intro n db tr tr' db' h
    rw [processItems] at h
    cases hPI : processItem w d no n it db tr with
    | mk tr1 r =>
      rw [hPI] at h
      cases r with
      | error e => simp at h
      | ok db1 =>
        obtain ⟨price, stk, hI, hS, hdi, hcu, hit, hor, hno, hst, hol, htr⟩ :=
          processItem_eq_ok w d no n it db tr tr1 db1 hPI
        obtain ⟨rdi, rcu, rit, ror, rno, rst, rol, rpres⟩ :=
          ih (n + 1) db1 tr1 tr' db' h
        refine ⟨rdi.trans hdi, rcu.trans hcu, rit.trans hit, ror.trans hor,
          rno.trans hno, ?_, ?_, ?_⟩
        · intro w' i'
          rw [rst w' i', hst]
          unfold updStock
          by_cases hk : w' = w ∧ i' = it.item_id
          · obtain ⟨rfl, rfl⟩ := hk
            simp [hS, stockUpdate]
          · simp [hk]
        · rw [rol, hol, hit]
          rw [List.append_assoc]
          congr 1
          show olRow w d no n it price :: expectedOrderLines db.item w d no (n + 1) rest
            = expectedOrderLines db.item w d no n (it :: rest)
          rw [expectedOrderLines, hI]
        · intro x hx
          rcases List.mem_cons.mp hx with hx | hx
          · subst hx; rw [hI]; rfl
          · have := rpres x hx
            rw [hit] at this
            exact this

/-- If every line item has an item row and a stock row, the per-item loop
succeeds. -/
theorem processItems_success (w d no : Int) (items : List LineItem) :
    ∀ (n : Nat) (db : DB) (tr : List Stmt),
    (∀ it ∈ items, (db.item it.item_id).isSome = true ∧
      (db.stock w it.item_id).isSome = true) →
    ∃ tr' db', processItems w d no n items db tr = (tr', Except.ok db') := by
  induction items with
  | nil => intro n db tr _; exact ⟨tr, db, rfl⟩
  | cons it rest ih =>
    intro n db tr hpres
    obtain ⟨hI, hS⟩ := hpres it (List.mem_cons_self it rest)
    obtain ⟨price, hI'⟩ := Option.isSome_iff_exists.mp hI
    obtain ⟨stk, hS'⟩ := Option.isSome_iff_exists.mp hS
    have hstep : processItem w d no n it db tr =
        (tr ++ [⟨.selectOp, .item⟩, ⟨.selectForUpdateOp, .stock⟩,
          ⟨.updateOp, .stock⟩, ⟨.insertOp, .order_line⟩],
         Except.ok { db with
           stock := updStock db.stock w it.item_id (stockUpdate stk it.quantity)
           order_lines := db.order_lines ++ [olRow w d no n it price] }) := by
      unfold processItem
      rw [hI', hS']
      simp [List.append_assoc]
    rw [processItems, hstep]
    have hnext : ∀ x ∈ rest,
        ((({ db with
            stock := updStock db.stock w it.item_id (stockUpdate stk it.quantity)
            order_lines := db.order_lines ++ [olRow w d no n it price] } : DB)).item x.item_id).isSome = true ∧
        ((({ db with
            stock := updStock db.stock w it.item_id (stockUpdate stk it.quantity)
            order_lines := db.order_lines ++ [olRow w d no n it price] } : DB)).stock w x.item_id).isSome = true := by
      intro x hx
      obtain ⟨hxI, hxS⟩ := hpres x (List.mem_cons_of_mem it hx)
      exact ⟨hxI, updStock_isSome db.stock w it.item_id _ w x.item_id hxS⟩
    exact ih (n + 1) _ _ hnext

/-- A failing per-item loop raises one of the two per-item `ValueError`s. -/
theorem processItems_error (w d no : Int) (items : List LineItem) :
    ∀ (n : Nat) (db : DB) (tr tr' : List Stmt) (e : PyErr),
    processItems w d no n items db tr = (tr', Except.error e) →
    ∃ iid : Int, e = PyErr.valueError ("Item " ++ toString iid ++ " not found") ∨
      e = PyErr.valueError ("Stock for item " ++ toString iid ++ " not found") := by
  induction items with
  | nil => intro n db tr tr' e h; simp [processItems] at h
  | cons it rest ih =>
    intro n db tr tr' e h
    rw [processItems] at h
    cases hPI : processItem w d no n it db tr with
    | mk tr1 r =>
      rw [hPI] at h
      cases r with
      | error e1 =>
        simp only [Prod.mk.injEq, Except.error.injEq] at h
        obtain ⟨rfl, rfl⟩ := h
        exact ⟨it.item_id, processItem_error w d no n it db tr tr1 e1 hPI⟩
      | ok db1 => exact ih (n + 1) db1 tr1 tr' e h

/-- Any per-item loop run extends the trace by frame-respecting statements. -/
theorem processItems_trace (w d no : Int) (items : List LineItem) :
    ∀ (n : Nat) (db : DB) (tr : List Stmt),
    ∃ ext, (processItems w d no n items db tr).1 = tr ++ ext ∧
      ext.all stmtFrameOk = true := by
  induction items with
  | nil => intro n db tr; exact ⟨[], by simp [processItems], rfl⟩
  | cons it rest ih =>
    intro n db tr
    rw [processItems]
    cases hPI : processItem w d no n it db tr with
    | mk tr1 r =>
      obtain ⟨ext1, hext1, hok1⟩ := processItem_trace w d no n it db tr
      rw [hPI] at hext1
      have hext1a : tr1 = tr ++ ext1 := hext1
      cases r with
      | error e => exact ⟨ext1, hext1a, hok1⟩
      | ok db1 =>
        obtain ⟨ext2, hext2, hok2⟩ := ih (n + 1) db1 tr1
        refine ⟨ext1 ++ ext2, ?_, ?_⟩
        · show (processItems w d no (n + 1) rest db1 tr1).1 = tr ++ (ext1 ++ ext2)
          rw [hext2, hext1a, List.append_assoc]
        · rw [List.all_append, hok1, hok2]; rfl

/-! ## Lemmas about `newOrderTxn` -/

/-- Characterization of a successful transaction body: the returned order id
is the counter value read in step 1; the worked state has the counter at
that value plus one; customer and item tables are untouched; stock keys and
`s_remote_cnt` are preserved; the order lines grow by the expected rows. -/
theorem newOrderTxn_eq_ok (db : DB) (w d c : Int) (items : List LineItem)
    (tr : List Stmt) (db' : DB) (oid : Int)
    (h : newOrderTxn db w d c items = (tr, Except.ok (db', oid))) :
    db.district w d = some oid ∧
    db'.district w d = some (oid + 1) ∧
    db'.customer = db.customer ∧
    db'.item = db.item ∧
    (∀ w' i', (db'.stock w' i').map Stock.s_remote_cnt
        = (db.stock w' i').map Stock.s_remote_cnt) ∧
    db'.order_lines = db.order_lines ++ expectedOrderLines db.item w d oid 1 items ∧
    (∀ it ∈ items, (db.item it.item_id).isSome = true) := by
  simp only [newOrderTxn] at h
  split at h
  · simp at h
  · rename_i next hD
    split at h
    · simp at h
    · rename_i cust hC
      split at h
      · simp at h
      · rename_i tr2 db4 hP
        simp only [Prod.mk.injEq, Except.ok.injEq] at h
        obtain ⟨rfl, rfl, rfl⟩ := h
        obtain ⟨rdi, rcu, rit, ror, rno, rst, rol, rpres⟩ :=
          processItems_eq_ok w d _ items 1 _ _ _ _ hP
        refine ⟨hD, ?_, rcu, rit, rst, rol, rpres⟩
        rw [rdi]
        show incrDistrict db.district w d w d = _
        unfold incrDistrict
        rw [if_pos ⟨rfl, rfl⟩, hD]
        rfl

/-- A failing transaction body raises a `ValueError` carrying one of the
four not-found messages. -/
theorem newOrderTxn_error (db : DB) (w d c : Int) (items : List LineItem)
    (tr : List Stmt) (e : PyErr)
    (h : newOrderTxn db w d c items = (tr, Except.error e)) :
    ∃ m, e = PyErr.valueError m ∧ notFoundMessage m := by
  simp only [newOrderTxn] at h
  split at h
  · simp only [Prod.mk.injEq, Except.error.injEq] at h
    exact ⟨"District not found", h.2.symm, Or.inl rfl⟩
  · rename_i next hD
    split at h
    · simp only [Prod.mk.injEq, Except.error.injEq] at h
      exact ⟨"Customer not found", h.2.symm, Or.inr (Or.inl rfl)⟩
    · rename_i cust hC
      split at h
      · rename_i tr2 e1 hP
        simp only [Prod.mk.injEq, Except.error.injEq] at h
        obtain ⟨rfl, rfl⟩ := h
        obtain ⟨iid, hmsg⟩ := processItems_error w d next items 1 _ _ _ _ hP
        cases hmsg with
        | inl hm => exact ⟨_, hm, Or.inr (Or.inr (Or.inl ⟨iid, rfl⟩))⟩
        | inr hm => exact ⟨_, hm, Or.inr (Or.inr (Or.inr ⟨iid, rfl⟩))⟩
      · simp at h

/-- The statement trace of any `execute_new_order` call starts with the
district `FOR UPDATE` read, and every statement in it respects the write
frame (writes only to district, orders, new_order, stock, order_line). -/
theorem newOrderTxn_trace (db : DB) (w d c : Int) (items : List LineItem) :
    ∃ ext, newOrderTrace db w d c items
        = ⟨SqlOp.selectForUpdateOp, Table.district⟩ :: ext ∧
      (newOrderTrace db w d c items).all stmtFrameOk = true := by
  unfold newOrderTrace
  simp only [newOrderTxn]
  cases hD : db.district w d with
  | none => exact ⟨[], by simp [hD], by simp [hD]; decide⟩
  | some next =>
    cases hC : db.customer w d c with
    | none =>
      refine ⟨[⟨SqlOp.updateOp, Table.district⟩, ⟨SqlOp.selectOp, Table.customer⟩],
        ?_, ?_⟩
      · simp [hD, hC]
      · simp [hD, hC]; decide
    | some cust =>
      obtain ⟨ext5, hext5, hok5⟩ := processItems_trace w d next items 1
        { db with
          district := incrDistrict db.district w d
          orders := db.orders ++ [⟨next, d, w, c, none, items.length, 1⟩]
          new_orders := db.new_orders ++ [⟨next, d, w⟩] }
        [⟨.selectForUpdateOp, .district⟩, ⟨.updateOp, .district⟩, ⟨.selectOp, .customer⟩,
         ⟨.insertOp, .orders⟩, ⟨.insertOp, .new_order⟩]
      cases hP : processItems w d next 1 items
        { db with
          district := incrDistrict db.district w d
          orders := db.orders ++ [⟨next, d, w, c, none, items.length, 1⟩]
          new_orders := db.new_orders ++ [⟨next, d, w⟩] }
        [⟨.selectForUpdateOp, .district⟩, ⟨.updateOp, .district⟩, ⟨.selectOp, .customer⟩,
         ⟨.insertOp, .orders⟩, ⟨.insertOp, .new_order⟩] with
    | mk tr1 r =>
      rw [hP] at hext5
      have hext5a : tr1 = [⟨.selectForUpdateOp, .district⟩, ⟨.updateOp, .district⟩,
          ⟨.selectOp, .customer⟩, ⟨.insertOp, .orders⟩, ⟨.insertOp, .new_order⟩] ++ ext5 :=
        hext5
      have hall : tr1.all stmtFrameOk = true := by
        rw [hext5a, List.all_append, hok5]
        decide
      cases r with
      | error e =>
        refine ⟨[⟨SqlOp.updateOp, Table.district⟩, ⟨SqlOp.selectOp, Table.customer⟩,
          ⟨SqlOp.insertOp, Table.orders⟩, ⟨SqlOp.insertOp, Table.new_order⟩] ++ ext5, ?_, ?_⟩
        · simp [hD, hC, hP, hext5a]
        · simp [hD, hC, hP, hall]
      | ok db4 =>
        refine ⟨[⟨SqlOp.updateOp, Table.district⟩, ⟨SqlOp.selectOp, Table.customer⟩,
          ⟨SqlOp.insertOp, Table.orders⟩, ⟨SqlOp.insertOp, Table.new_order⟩] ++ ext5, ?_, ?_⟩
        · simp [hD, hC, hP, hext5a]
        · simp [hD, hC, hP, hall]

/-- If the district, customer, and every line item's item and stock rows
exist, the transaction body succeeds and returns the district counter value
read in step 1. -/
theorem newOrderTxn_success (db : DB) (w d c oid : Int) (items : List LineItem)
    (hD : db.district w d = some oid)
    (hC : (db.customer w d c).isSome = true)
    (hpres : ∀ it ∈ items, (db.item it.item_id).isSome = true ∧
      (db.stock w it.item_id).isSome = true) :
    ∃ tr db', newOrderTxn db w d c items = (tr, Except.ok (db', oid)) := by
  obtain ⟨cust, hC'⟩ := Option.isSome_iff_exists.mp hC
  obtain ⟨tr', db4, hP⟩ := processItems_success w d oid items 1
    { db with
      district := incrDistrict db.district w d
      orders := db.orders ++ [⟨oid, d, w, c, none, items.length, 1⟩]
      new_orders := db.new_orders ++ [⟨oid, d, w⟩] }
    [⟨.selectForUpdateOp, .district⟩, ⟨.updateOp, .district⟩, ⟨.selectOp, .customer⟩,
     ⟨.insertOp, .orders⟩, ⟨.insertOp, .new_order⟩]
    hpres
  refine ⟨tr', db4, ?_⟩
  simp only [newOrderTxn, hD, hC']
  simp only [List.append_assoc, List.singleton_append, List.cons_append, List.nil_append]
  rw [hP]

/-! ## Lemmas about `expectedOrderLines` -/

/-- When every item exists, the expected order lines have one row per item. -/
theorem expectedOrderLines_length (dbitem : Int → Option Int) (w d no : Int)
    (items : List LineItem) :
    ∀ n : Nat, (∀ it ∈ items, (dbitem it.item_id).isSome = true) →
    (expectedOrderLines dbitem w d no n items).length = items.length := by
  induction items with
  | nil => intro n _; rfl
  | cons it rest ih =>
    intro n hpres
    obtain ⟨price, hI⟩ :=
      Option.isSome_iff_exists.mp (hpres it (List.mem_cons_self it rest))
    rw [expectedOrderLines, hI]
    simp only [List.length_cons]
    rw [ih (n + 1) (fun x hx => hpres x (List.mem_cons_of_mem it hx))]

/-- When every item exists, the i-th expected order line is the `olRow` of
the i-th input item, with line number `n + i` and the item's price. -/
theorem expectedOrderLines_get (dbitem : Int → Option Int) (w d no : Int)
    (items : List LineItem) :
    ∀ (n i : Nat), i < items.length →
    (∀ it ∈ items, (dbitem it.item_id).isSome = true) →
    ∃ it price, items[i]? = some it ∧ dbitem it.item_id = some price ∧
      (expectedOrderLines dbitem w d no n items)[i]?
        = some (olRow w d no (n + i) it price) := by
  induction items with
  | nil => intro n i hi _; simp at hi
  | cons it rest ih =>
    intro n i hi hpres
    obtain ⟨price, hI⟩ :=
      Option.isSome_iff_exists.mp (hpres it (List.mem_cons_self it rest))
    rw [expectedOrderLines, hI]
    cases i with
    | zero => exact ⟨it, price, by simp, hI, by simp⟩
    | succ j =>
      have hj : j < rest.length := by
        simp only [List.length_cons] at hi
        omega
      obtain ⟨it', price', h1, h2, h3⟩ :=
        ih (n + 1) j hj (fun x hx => hpres x (List.mem_cons_of_mem it hx))
      refine ⟨it', price', ?_, h2, ?_⟩
      · rw [List.getElem?_cons_succ]
        exact h1
      · rw [List.getElem?_cons_succ]
        have harith : n + 1 + j = n + (j + 1) := by omega
        rw [harith] at h3
        exact h3

/-! ## Claims -/

/-- C1: for every successful call to `execute_new_order`, the returned order
id equals the district's `d_next_o_id` value read (with a write-intent
`FOR UPDATE` read, the first statement issued) before the increment, and
after commit the district's `d_next_o_id` equals that original value plus
one. -/
theorem C1_order_id_is_counter_before_increment (db : DB) (w d c : Int)
    (items : List LineItem) (db' : DB) (oid : Int)
    (h : execute_new_order db w d c items = (db', Except.ok oid)) :
    db.district w d = some oid ∧
    db'.district w d = some (oid + 1) ∧
    (newOrderTrace db w d c items).head?
      = some ⟨SqlOp.selectForUpdateOp, Table.district⟩ := by
  unfold execute_new_order at h
  cases hT : newOrderTxn db w d c items with
  | mk tr r =>
    rw [hT] at h
    cases r with
    | error e => simp at h
    | ok p =>
      obtain ⟨db2, oid2⟩ := p
      simp only [Prod.mk.injEq, Except.ok.injEq] at h
      obtain ⟨rfl, rfl⟩ := h
      obtain ⟨h1, h2, _, _, _, _, _⟩ := newOrderTxn_eq_ok db w d c items tr _ _ hT
      obtain ⟨ext, hhead, _⟩ := newOrderTxn_trace db w d c items
      exact ⟨h1, h2, by rw [hhead]; rfl⟩

/-- Witness for C1 on the spec's end-to-end scenario: next order id 100 is
returned, the counter becomes 101, and the first statement is the district
`FOR UPDATE` read. -/
theorem C1_witness :
    dbT.district 1 1 = some 100 ∧
    (execute_new_order dbT 1 1 1 [⟨5, 3⟩]).1.district 1 1 = some 101 ∧
    (newOrderTrace dbT 1 1 1 [⟨5, 3⟩]).head?
      = some ⟨SqlOp.selectForUpdateOp, Table.district⟩ :=
  C1_order_id_is_counter_before_increment dbT 1 1 1 [⟨5, 3⟩]
    (execute_new_order dbT 1 1 1 [⟨5, 3⟩]).1 100 rfl

/-- C2: if any step of `execute_new_order` fails, the whole transaction is
rolled back and the error propagates: the committed state is the original
one — no district, order, pending-order, order-line, or stock mutation
persists. -/
theorem C2_failure_rolls_back_everything (db : DB) (w d c : Int)
    (items : List LineItem) (db' : DB) (e : PyErr)
    (h : execute_new_order db w d c items = (db', Except.error e)) :
    db' = db ∧ db'.district = db.district ∧ db'.stock = db.stock ∧
    db'.orders = db.orders ∧ db'.new_orders = db.new_orders ∧
    db'.order_lines = db.order_lines ∧
    (execute_new_order db w d c items).2 = Except.error e := by
  unfold execute_new_order at h
  cases hT : newOrderTxn db w d c items with
  | mk tr r =>
    rw [hT] at h
    cases r with
    | ok p =>
      obtain ⟨db2, oid2⟩ := p
      simp at h
    | error e1 =>
      simp only [Prod.mk.injEq, Except.error.injEq] at h
      obtain ⟨rfl, rfl⟩ := h
      refine ⟨rfl, rfl, rfl, rfl, rfl, rfl, ?_⟩
      unfold execute_new_order
      rw [hT]

/-- Witness for C2: the item lookup fails on line 3 of 5 (item 103 is
missing from `db5`), the call raises `ValueError "Item 103 not found"`, and
the committed state is unchanged — in particular the district counter is
still 200 and the stock rows touched by lines 1 and 2 still read 50. -/
theorem C2_witness :
    execute_new_order db5 1 1 1 items5
      = (db5, Except.error (PyErr.valueError "Item 103 not found")) ∧
    (execute_new_order db5 1 1 1 items5).2
      = Except.error (PyErr.valueError "Item 103 not found") ∧
    (execute_new_order db5 1 1 1 items5).1.district 1 1 = some 200 ∧
    (execute_new_order db5 1 1 1 items5).1.stock 1 101 = some ⟨50, 0, 0, 7⟩ ∧
    (execute_new_order db5 1 1 1 items5).1.stock 1 102 = some ⟨50, 0, 0, 7⟩ ∧
    (execute_new_order db5 1 1 1 items5).1.order_lines = [] :=
  ⟨rfl,
   (C2_failure_rolls_back_everything db5 1 1 1 items5 db5
      (PyErr.valueError "Item 103 not found") rfl).2.2.2.2.2.2,
   rfl, rfl, rfl, rfl⟩

/-- C3: for every line item processed by `execute_new_order` (one
`processItem` iteration), the new stock quantity equals the old quantity
minus the ordered quantity, with 100 added back if that difference is below
10. -/
theorem C3_stock_wraparound (w d no : Int) (n : Nat) (it : LineItem)
    (db : DB) (tr tr' : List Stmt) (db' : DB) (stk : Stock)
    (h : processItem w d no n it db tr = (tr', Except.ok db'))
    (hS : db.stock w it.item_id = some stk) :
    ∃ stk', db'.stock w it.item_id = some stk' ∧
      stk'.s_quantity = (if stk.s_quantity - it.quantity < 10
        then stk.s_quantity - it.quantity + 100
        else stk.s_quantity - it.quantity) := by
  obtain ⟨price, stk2, hI, hS2, _, _, _, _, _, hst, _, _⟩ :=
    processItem_eq_ok w d no n it db tr tr' db' h
  have hstk : stk2 = stk := Option.some.inj (hS2.symm.trans hS)
  subst hstk
  refine ⟨stockUpdate stk2 it.quantity, ?_, ?_⟩
  · rw [hst]
    unfold updStock
    rw [if_pos ⟨rfl, rfl⟩]
  · simp [stockUpdate, newStockQuantity]

/-- Witness for C3 on the spec's two instances: quantity 15 with order
quantity 8 wraps to 107; quantity 50 with order quantity 8 gives 42. -/
theorem C3_witness :
    (∃ stk', dbC3a.stock 1 6 = some stk' ∧ stk'.s_quantity = 107) ∧
    (∃ stk', dbC3b.stock 1 7 = some stk' ∧ stk'.s_quantity = 42) := by
  constructor
  · obtain ⟨stk', h1, h2⟩ :=
      C3_stock_wraparound 1 1 100 1 ⟨6, 8⟩ dbC3 [] _ dbC3a ⟨15, 0, 0, 0⟩ rfl rfl
    exact ⟨stk', h1, by rw [h2]; decide⟩
  · obtain ⟨stk', h1, h2⟩ :=
      C3_stock_wraparound 1 1 100 1 ⟨7, 8⟩ dbC3 [] _ dbC3b ⟨50, 0, 0, 0⟩ rfl rfl
    exact ⟨stk', h1, by rw [h2]; decide⟩

/-- C4: for every line item, processed in input order, `execute_new_order`
inserts an order_line row whose amount is quantity × item price and whose
line number is exactly the item's 1-based input position.  The i-th
(0-based) appended row sits at position `db.order_lines.length + i` and is
the `olRow` of the i-th input item with line number `1 + i`. -/
theorem C4_order_line_amount_and_number (db : DB) (w d c : Int)
    (items : List LineItem) (db' : DB) (oid : Int)
    (h : execute_new_order db w d c items = (db', Except.ok oid)) :
    db'.order_lines.length = db.order_lines.length + items.length ∧
    ∀ i : Nat, i < items.length →
      ∃ it price, items[i]? = some it ∧ db.item it.item_id = some price ∧
        db'.order_lines[db.order_lines.length + i]?
          = some (olRow w d oid (1 + i) it price) ∧
        (olRow w d oid (1 + i) it price).ol_number = 1 + i ∧
        (olRow w d oid (1 + i) it price).ol_amount = it.quantity * price := by
  unfold execute_new_order at h
  cases hT : newOrderTxn db w d c items with
  | mk tr r =>
    rw [hT] at h
    cases r with
    | error e => simp at h
    | ok p =>
      obtain ⟨db2, oid2⟩ := p
      simp only [Prod.mk.injEq, Except.ok.injEq] at h
      obtain ⟨rfl, rfl⟩ := h
      obtain ⟨_, _, _, _, _, rol, rpres⟩ := newOrderTxn_eq_ok db w d c items tr _ _ hT
      constructor
      · rw [rol, List.length_append,
          expectedOrderLines_length db.item w d oid2 items 1 rpres]
      · intro i hi
        obtain ⟨it, price, h1, h2, h3⟩ :=
          expectedOrderLines_get db.item w d oid2 items 1 i hi rpres
        refine ⟨it, price, h1, h2, ?_, rfl, rfl⟩
        rw [rol, List.getElem?_append_right (by omega)]
        have harith : db.order_lines.length + i - db.order_lines.length = i := by
          omega
        rw [harith]
        exact h3

/-- Witness for C4 on the one-item scenario: the single inserted order line
sits at position 0, has line number 1, and amount 3 × 20. -/
theorem C4_witness :
    ([(⟨5, 3⟩ : LineItem)])[0]? = some (⟨5, 3⟩ : LineItem) ∧
    dbT.item 5 = some 20 ∧
    (execute_new_order dbT 1 1 1 [⟨5, 3⟩]).1.order_lines[0]?
      = some (olRow 1 1 100 1 ⟨5, 3⟩ 20) ∧
    (olRow 1 1 100 1 ⟨5, 3⟩ 20).ol_number = 1 ∧
    (olRow 1 1 100 1 ⟨5, 3⟩ 20).ol_amount = 3 * 20 := by
  have h := (C4_order_line_amount_and_number dbT 1 1 1 [⟨5, 3⟩]
    (execute_new_order dbT 1 1 1 [⟨5, 3⟩]).1 100 rfl).2 0 (by decide)
  obtain ⟨it, price, h1, h2, h3, h4, h5⟩ := h
  have hit : (⟨5, 3⟩ : LineItem) = it := Option.some.inj h1
  subst hit
  have hpr : (20 : Int) = price := Option.some.inj h2
  subst hpr
  exact ⟨rfl, rfl, h3, rfl, rfl⟩

/-- C5 (amended): the classifier maps every statement by a case-insensitive
*prefix* match against the keyword alternatives, after dropping leading
whitespace — DDL keywords first, then DML, otherwise READ.  (The original
claim spoke of the leading keyword; the patterns have no word boundary, so
a statement whose first word merely begins with a keyword also matches.) -/
theorem C5_classifier_is_prefix_match (q : String) :
    (classify q = StmtClass.DDL ↔
      ∃ kw ∈ DDL_KEYWORDS, upperAscii (prefixOfLength (stripLeadingWs q) kw.data.length) = kw) ∧
    (classify q = StmtClass.DML ↔
      ((∀ kw ∈ DDL_KEYWORDS, upperAscii (prefixOfLength (stripLeadingWs q) kw.data.length) ≠ kw) ∧
       ∃ kw ∈ DML_KEYWORDS, upperAscii (prefixOfLength (stripLeadingWs q) kw.data.length) = kw)) ∧
    (classify q = StmtClass.READ ↔
      ∀ kw ∈ DDL_KEYWORDS ++ DML_KEYWORDS,
        upperAscii (prefixOfLength (stripLeadingWs q) kw.data.length) ≠ kw) := by
  cases hA : matchesKeywordAlt DDL_KEYWORDS q with
  | true =>
    simp only [matchesKeywordAlt, ciStartsWith, List.any_eq_true,
      decide_eq_true_eq] at hA
    refine ⟨?_, ?_, ?_⟩
    · simp only [classify]
      rw [if_pos ?_]
      · simpa using hA
      · simp only [matchesKeywordAlt, ciStartsWith, List.any_eq_true,
          decide_eq_true_eq]
        exact hA
    · simp only [classify]
      rw [if_pos ?_]
      · obtain ⟨kw, hkw, heq⟩ := hA
        constructor
        · intro hcon; cases hcon
        · rintro ⟨hno, -⟩
          exact absurd heq (hno kw hkw)
      · simp only [matchesKeywordAlt, ciStartsWith, List.any_eq_true,
          decide_eq_true_eq]
        exact hA
    · simp only [classify]
      rw [if_pos ?_]
      · obtain ⟨kw, hkw, heq⟩ := hA
        constructor
        · intro hcon; cases hcon
        · intro hno
          exact absurd heq (hno kw (List.mem_append_left _ hkw))
      · simp only [matchesKeywordAlt, ciStartsWith, List.any_eq_true,
          decide_eq_true_eq]
        exact hA
  | false =>
    have hA' : ∀ kw ∈ DDL_KEYWORDS, upperAscii (prefixOfLength (stripLeadingWs q) kw.data.length) ≠ kw := by
      simp only [matchesKeywordAlt, ciStartsWith, List.any_eq_false,
        decide_eq_true_eq] at hA
      exact hA
    cases hB : matchesKeywordAlt DML_KEYWORDS q with
    | true =>
      have hB' : ∃ kw ∈ DML_KEYWORDS, upperAscii (prefixOfLength (stripLeadingWs q) kw.data.length) = kw := by
        simp only [matchesKeywordAlt, ciStartsWith, List.any_eq_true,
          decide_eq_true_eq] at hB
        exact hB
      have hcl : classify q = StmtClass.DML := by
        simp only [classify, hA, hB]
        rfl
      refine ⟨?_, ?_, ?_⟩
      · rw [hcl]
        constructor
        · intro hcon; cases hcon
        · rintro ⟨kw, hkw, heq⟩
          obtain ⟨kw2, hkw2, heq2⟩ := hB'
          exact absurd heq (hA' kw hkw)
      · rw [hcl]
        exact ⟨fun _ => ⟨hA', hB'⟩, fun _ => rfl⟩
      · rw [hcl]
        constructor
        · intro hcon; cases hcon
        · intro hno
          obtain ⟨kw, hkw, heq⟩ := hB'
          exact absurd heq (hno kw (List.mem_append_right _ hkw))
    | false =>
      have hB' : ∀ kw ∈ DML_KEYWORDS, upperAscii (prefixOfLength (stripLeadingWs q) kw.data.length) ≠ kw := by
        simp only [matchesKeywordAlt, ciStartsWith, List.any_eq_false,
          decide_eq_true_eq] at hB
        exact hB
      have hcl : classify q = StmtClass.READ := by
        simp only [classify, hA, hB]
        rfl
      refine ⟨?_, ?_, ?_⟩
      · rw [hcl]
        constructor
        · intro hcon; cases hcon
        · rintro ⟨kw, hkw, heq⟩
          exact absurd heq (hA' kw hkw)
      · rw [hcl]
        constructor
        · intro hcon; cases hcon
        · rintro ⟨-, kw, hkw, heq⟩
          exact absurd heq (hB' kw hkw)
      · rw [hcl]
        refine ⟨fun _ kw hkw => ?_, fun _ => rfl⟩
        rcases List.mem_append.mp hkw with hm | hm
        · exact hA' kw hm
        · exact hB' kw hm

/-- Counterexample to C5 as stated: the statement `DELETED FROM t` has
leading keyword `DELETED`, which is in neither keyword set, so the
leading-keyword rule classifies it READ — but the classifier, matching raw
prefixes, classifies it DML (its text starts with `DELETE`). -/
theorem C5_counterexample :
    classify "DELETED FROM t" = StmtClass.DML ∧
    leadingKeyword "DELETED FROM t" = "DELETED" ∧
    (DDL_KEYWORDS ++ DML_KEYWORDS).contains "DELETED" = false ∧
    classifyByLeadingKeyword "DELETED FROM t" = StmtClass.READ ∧
    classify "DELETED FROM t" ≠ classifyByLeadingKeyword "DELETED FROM t" := by
  refine ⟨by decide, by decide, by decide, by decide, by decide⟩

/-- C6 (amended): every failure of `execute_new_order` is re-raised after
rollback, but not as a distinct classified kind: each not-found condition
(district, customer, item, stock) raises the same generic `ValueError`
exception type, distinguished only by its message text, so callers must
match messages to tell the causes apart; no `NotFound` or
`TransactionConflict` kind exists in the code. -/
theorem C6_failures_are_generic_value_errors (db : DB) (w d c : Int)
    (items : List LineItem) (e : PyErr)
    (h : (execute_new_order db w d c items).2 = Except.error e) :
    e.isValueError = true ∧ ∃ m, e = PyErr.valueError m ∧ notFoundMessage m := by
  unfold execute_new_order at h
  cases hT : newOrderTxn db w d c items with
  | mk tr r =>
    rw [hT] at h
    cases r with
    | ok p =>
      obtain ⟨db2, oid⟩ := p
      simp at h
    | error e1 =>
      have he : e1 = e := Except.error.inj h
      subst he
      obtain ⟨m, hm, hnf⟩ := newOrderTxn_error db w d c items tr e1 hT
      exact ⟨by rw [hm]; rfl, m, hm, hnf⟩

/-- Witness for C6 (amended) at a concrete input: a missing customer
surfaces as a `ValueError`. -/
theorem C6_witness :
    (execute_new_order dbT 1 1 2 [⟨5, 3⟩]).2
      = Except.error (PyErr.valueError "Customer not found") ∧
    (PyErr.valueError "Customer not found").isValueError = true ∧
    ∃ m, PyErr.valueError "Customer not found" = PyErr.valueError m ∧
      notFoundMessage m :=
  ⟨rfl,
   (C6_failures_are_generic_value_errors dbT 1 1 2 [⟨5, 3⟩]
      (PyErr.valueError "Customer not found") rfl).1,
   (C6_failures_are_generic_value_errors dbT 1 1 2 [⟨5, 3⟩]
      (PyErr.valueError "Customer not found") rfl).2⟩

/-- Counterexample to C6 as stated: a missing district and a missing item
are both surfaced as the *same* exception kind (`ValueError`), not as
distinct classified kinds — they differ only in their message strings, so a
caller cannot distinguish them without looking at the message. -/
theorem C6_counterexample :
    (execute_new_order dbNoDistrict 1 1 1 [⟨5, 3⟩]).2
      = Except.error (PyErr.valueError "District not found") ∧
    (execute_new_order dbT 1 1 1 [⟨7, 3⟩]).2
      = Except.error (PyErr.valueError "Item 7 not found") ∧
    (PyErr.valueError "District not found").isValueError
      = (PyErr.valueError "Item 7 not found").isValueError ∧
    (PyErr.valueError "District not found")
      ≠ (PyErr.valueError "Item 7 not found") :=
  ⟨rfl, rfl, rfl, by decide⟩

/-- C7 (amended): `execute_new_order` performs no row-modification-cap
check: when the needed rows exist it issues all statements and succeeds even
for inputs whose total row-modification count 3 + 2·n exceeds the 3000-row
cap; no `ResourceLimitExceeded` failure exists in the code. -/
theorem C7_no_row_cap_check (db : DB) (w d c oid : Int) (items : List LineItem)
    (hD : db.district w d = some oid)
    (hC : (db.customer w d c).isSome = true)
    (hpres : ∀ it ∈ items, (db.item it.item_id).isSome = true ∧
      (db.stock w it.item_id).isSome = true)
    (_hcap : 3000 < 3 + 2 * items.length) :
    ∃ db', execute_new_order db w d c items = (db', Except.ok oid) := by
  obtain ⟨tr, db', hT⟩ := newOrderTxn_success db w d c oid items hD hC hpres
  refine ⟨db', ?_⟩
  unfold execute_new_order
  rw [hT]

/-- Witness for C7 (amended): 1500 line items mean 3 + 2·1500 = 3003 > 3000
modified rows, yet the call succeeds. -/
theorem C7_witness :
    3000 < 3 + 2 * bigItems2.length ∧
    (execute_new_order dbBig 1 1 1 bigItems2).2 = Except.ok 100 := by
  constructor
  · simp only [bigItems2, List.length_replicate]
    omega
  · obtain ⟨db', h⟩ := C7_no_row_cap_check dbBig 1 1 1 100 bigItems2 rfl rfl
      (fun it hit => by rw [List.eq_of_mem_replicate hit]; exact ⟨rfl, rfl⟩)
      (by simp only [bigItems2, List.length_replicate]; omega)
    rw [h]

/-- Counterexample to C7 as stated: 1499 line items mean 3 + 2·1499 = 3001
rows, which exceeds the 3000-row cap, yet `execute_new_order` does not fail
fast — it processes the input and returns order id 100. -/
theorem C7_counterexample :
    3000 < 3 + 2 * bigItems.length ∧
    (execute_new_order dbBig 1 1 1 bigItems).2 = Except.ok 100 := by
  constructor
  · simp only [bigItems, List.length_replicate]
    omega
  · obtain ⟨tr, db', hT⟩ := newOrderTxn_success dbBig 1 1 1 100 bigItems rfl rfl
      (fun it hit => by rw [List.eq_of_mem_replicate hit]; exact ⟨rfl, rfl⟩)
    unfold execute_new_order
    rw [hT]

/-- C8 (amended): neither function swallows an error — after rollback the
original exception is re-raised — and in `execute_query` a rollback failure
is caught and logged, so the original error still propagates; but in
`execute_new_order` the rollback call is unguarded, so when the rollback
itself raises, that error propagates instead of the original. -/
theorem C8_error_propagation (original e : PyErr) :
    executeQueryOnError original (Except.ok ()) = original ∧
    executeQueryOnError original (Except.error e) = original ∧
    executeNewOrderOnError original (Except.ok ()) = original ∧
    executeNewOrderOnError original (Except.error e) = e :=
  ⟨rfl, rfl, rfl, rfl⟩

/-- Counterexample to C8 as stated: in `execute_new_order`'s except block, a
failing rollback replaces the original error — the caller sees the rollback
error (not even a `ValueError` any more) instead of the original "District
not found"; `execute_query`'s except block, by contrast, preserves it. -/
theorem C8_counterexample :
    executeNewOrderOnError (PyErr.valueError "District not found")
        (Except.error (PyErr.dbError "rollback failed"))
      = PyErr.dbError "rollback failed" ∧
    (executeNewOrderOnError (PyErr.valueError "District not found")
        (Except.error (PyErr.dbError "rollback failed"))).isValueError = false ∧
    executeQueryOnError (PyErr.valueError "District not found")
        (Except.error (PyErr.dbError "rollback failed"))
      = PyErr.valueError "District not found" :=
  ⟨rfl, rfl, rfl⟩

/-- C9: `execute_new_order` never mutates Customer or Item rows — the
committed customer and item tables are unchanged for every input (success
or failure), and every statement the transaction issues that modifies rows
targets only district, orders, new_order, stock, or order_line. -/
theorem C9_customer_item_frame (db : DB) (w d c : Int) (items : List LineItem) :
    (execute_new_order db w d c items).1.customer = db.customer ∧
    (execute_new_order db w d c items).1.item = db.item ∧
    (newOrderTrace db w d c items).all stmtFrameOk = true := by
  obtain ⟨ext, hhead, hall⟩ := newOrderTxn_trace db w d c items
  refine ⟨?_, ?_, hall⟩ <;>
  · unfold execute_new_order
    cases hT : newOrderTxn db w d c items with
    | mk tr r =>
      cases r with
      | error e => rfl
      | ok p =>
        obtain ⟨db2, oid⟩ := p
        obtain ⟨_, _, rcu, rit, _, _, _⟩ := newOrderTxn_eq_ok db w d c items tr _ _ hT
        first
        | exact rcu
        | exact rit

/-- C10: for every input, the stock update leaves every stock row's
`s_remote_cnt` unchanged (the UPDATE sets only `s_quantity`, `s_ytd`,
`s_order_cnt`), and stock rows are neither created nor deleted. -/
theorem C10_remote_cnt_unchanged (db : DB) (w d c w' i' : Int)
    (items : List LineItem) :
    ((execute_new_order db w d c items).1.stock w' i').map Stock.s_remote_cnt
      = (db.stock w' i').map Stock.s_remote_cnt ∧
    (∀ stk q, (stockUpdate stk q).s_remote_cnt = stk.s_remote_cnt) := by
  refine ⟨?_, fun stk q => rfl⟩
  unfold execute_new_order
  cases hT : newOrderTxn db w d c items with
  | mk tr r =>
    cases r with
    | error e => rfl
    | ok p =>
      obtain ⟨db2, oid⟩ := p
      obtain ⟨_, _, _, _, rst, _, _⟩ := newOrderTxn_eq_ok db w d c items tr _ _ hT
      exact rst w' i'
